import Mathlib

/-!
Shallow embedding of the xterm-js-shell core (src/index.js): the command
registry kept in a JS Map, the REPL loop, command dispatch via run, the
per-invocation SubShell context with its destroyed flag, the attach/detach
flip-flop against the line-editing (echo) engine, and the readStream
raw-input lifecycle.

External collaborators (the local-echo engine, the xterm terminal, the
string-to-argv tokenizer, the minimist argument parser and the
event-iterator adapter) are modelled at their interface boundary: calls to
them appear as emitted events or as function parameters, exactly where the
source invokes them.
-/

namespace XtermShell

/-- Model of the value minimist returns for the flag-style options: an
opaque association of flag names to values. The shell core never inspects
it, it only forwards it to the handler. -/
abbrev Flags := List (String × String)

/-- The errors thrown inside the shell core.  `destroyed` is the
`new Error('Terminal destroyed')` thrown by `SubShell.checkDestroyed`;
`notFound` is the `TypeError(ERROR_NOT_FOUND(command))` thrown by `run`;
`handlerErr` is an opaque error thrown (or rejected with) by a command
handler, of which the loop only uses the message. -/
inductive ShellErr where
  | destroyed
  | notFound (command : String)
  | handlerErr (msg : String)
deriving DecidableEq, Repr

/-- The `.message` of each error, as built in src/index.js
(`ERROR_NOT_FOUND = command => Command Not Found: command`, and
`new Error('Terminal destroyed')`). -/
def errMessage : ShellErr → String
  | .destroyed => "Terminal destroyed"
  | .notFound c => "Command Not Found: " ++ c
  | .handlerErr m => m

/-- Observable behaviour of one call `fn(shell, args, flags)` of a command
handler, as `run` distinguishes the cases:
`syncThrow` — the call itself throws before returning;
`thenResolve` / `thenReject` — the result has a `.then` (a promise) that
resolves (payload discarded) or rejects;
`iter` — the result has a `.next` (an async iterator) that yields `chunks`
in order and afterwards either finishes (`endErr = none`) or throws
(`endErr = some msg`);
`plain` — the result has neither `.then` nor `.next`, so `run` does
nothing with it. -/
inductive HandlerBehavior where
  | syncThrow (msg : String)
  | thenResolve
  | thenReject (msg : String)
  | iter (chunks : List String) (endErr : Option String)
  | plain

/-- A command handler: what `fn(shell, args, flags)` does as a function of
the positional args and the parsed flags. -/
abbrev Handler := List String → Flags → HandlerBehavior

/-- An autocomplete provider: `(index, args) -> list of candidates`. -/
abbrev Provider := Nat → List String → List String

/-- A registry entry, as stored by `XtermJSShell.command`:
`{ command, fn, autocomplete }`. -/
structure Entry where
  command : String
  fn : Handler
  autocomplete : Option Provider

/-- The `this.commands` JS Map, modelled as an insertion-ordered
association list with unique keys (which is exactly the observable state
of a JS Map). -/
abbrev Commands := List (String × Entry)

/-- `Map.get(k)` (composed with the `.fn`/`.autocomplete` destructuring
done by callers): the entry stored under `k`, if any. -/
def mapGet (m : Commands) (k : String) : Option Entry :=
  (m.find? (fun p => p.1 == k)).map (fun p => p.2)

/-- `Map.has(k)`. -/
def mapHas (m : Commands) (k : String) : Bool :=
  (m.find? (fun p => p.1 == k)).isSome

/-- `Map.set(k, v)`: overwrite in place when the key is present (JS Maps
keep the original insertion position), append otherwise. -/
def mapSet : Commands → String → Entry → Commands
  | [], k, v => [(k, v)]
  | (a, b) :: t, k, v =>
    if a == k then (k, v) :: t else (a, b) :: mapSet t k v

/-- `[...this.commands.keys()]`: the keys in insertion order. -/
def mapKeys (m : Commands) : List String := m.map (fun p => p.1)

/-- A call made on the external local-echo engine: `this.echo.detach()`
or `this.echo.attach()`. -/
inductive EchoCall where
  | detach
  | attach
deriving DecidableEq, Repr, BEq

/-- The `XtermJSShell` state the core reads and writes: the command Map,
the environment object and the `attached` flag.  The `term`, `echo` and
`prompt` members are external collaborators and appear as emitted events
or parameters of the operations that use them. -/
structure XtermJSShell where
  commands : Commands
  env : List (String × String)
  attached : Bool

/-- `XtermJSShell.detach`: `if (!this.attached) return;
this.echo.detach(); this.attached = false`.  Returns the new state and
the calls made on the echo engine. -/
def XtermJSShell.detach (sh : XtermJSShell) : XtermJSShell × List EchoCall :=
  if !sh.attached then (sh, [])
  else ({ sh with attached := false }, [.detach])

/-- `XtermJSShell.attach`: `if (this.attached) return;
this.echo.attach(); this.attached = true`. -/
def XtermJSShell.attach (sh : XtermJSShell) : XtermJSShell × List EchoCall :=
  if sh.attached then (sh, [])
  else ({ sh with attached := true }, [.attach])

/-- `XtermJSShell.command` (command registration): warn (non-fatally) via
`console.warn` when the name is already bound, then unconditionally
`Map.set` the new entry, and return `this`.  The Bool records whether the
warning was emitted; the function is total — registration never throws. -/
def XtermJSShell.command (sh : XtermJSShell) (name : String) (fn : Handler)
    (autocomplete : Option Provider) : XtermJSShell × Bool :=
  let warned := mapHas sh.commands name
  ({ sh with commands := mapSet sh.commands name ⟨name, fn, autocomplete⟩ },
   warned)

/-- `XtermJSShell.autoCompleteCommands(index, tokens)`:
index 0 returns all registered command names; otherwise look up
`tokens[0]` (absent when tokens is empty, and `Map.has(undefined)` is
false), return `[]` when it is unregistered or has no autocomplete
provider, else delegate to the provider with `(index - 1,
tokens.slice(1))` and return its result verbatim. -/
def XtermJSShell.autoCompleteCommands (sh : XtermJSShell) (index : Nat)
    (tokens : List String) : List String :=
  match index with
  | 0 => mapKeys sh.commands
  | k + 1 =>
    match tokens.head? with
    | none => []
    | some command =>
      match mapGet sh.commands command with
      | some entry =>
        match entry.autocomplete with
        | none => []
        | some p => p k tokens.tail
      | none => []

/-- The `SubShell` state the core reads and writes: the `destroyed` flag
(the `shell` back-reference is threaded through the operations). -/
structure SubShell where
  destroyed : Bool

/-- `SubShell.checkDestroyed`:
`if (this.destroyed) throw new Error('Terminal destroyed')`. -/
def SubShell.checkDestroyed (s : SubShell) : Except ShellErr Unit :=
  if s.destroyed then .error .destroyed else .ok ()

/-- `SubShell.destroy`: sets destroyed = true; total (never throws), and
idempotent by construction. -/
def SubShell.destroy (s : SubShell) : SubShell :=
  { s with destroyed := true }

/-- `SubShell.print(message)`: check the destroyed flag, then forward to
`shell.print`, i.e. `term.write(message)`.  The `.ok` payload is the text
written to the terminal. -/
def SubShell.print (s : SubShell) (message : String) :
    Except ShellErr String := do
  s.checkDestroyed
  return message

/-- `SubShell.printLine(message)`: check the destroyed flag, then forward
to `shell.printLine`, i.e. `echo.println(message)`. -/
def SubShell.printLine (s : SubShell) (message : String) :
    Except ShellErr String := do
  s.checkDestroyed
  return message

/-- `SubShell.printList(list)`: check the destroyed flag, then forward to
`shell.printList`, i.e. `echo.printWide(list)`. -/
def SubShell.printList (s : SubShell) (list : List String) :
    Except ShellErr (List String) := do
  s.checkDestroyed
  return list

/-- `SubShell.readChar(message)`: check the destroyed flag, then forward
to `shell.readChar`, i.e. `echo.readChar(message)`.  The `.ok` payload is
the prompt forwarded to the echo engine. -/
def SubShell.readChar (s : SubShell) (message : String) :
    Except ShellErr String := do
  s.checkDestroyed
  return message

/-- `SubShell.readLine(message)`: check the destroyed flag, then forward
to `shell.readLine`, i.e. `echo.read(message)`. -/
def SubShell.readLine (s : SubShell) (message : String) :
    Except ShellErr String := do
  s.checkDestroyed
  return message

/-- `SubShell.abortRead(reason)`: check the destroyed flag, then forward
to `shell.abortRead`, i.e. `echo.abortRead(reason)`. -/
def SubShell.abortRead (s : SubShell) (reason : String) :
    Except ShellErr String := do
  s.checkDestroyed
  return reason

/-- `SubShell.clear()`: check the destroyed flag, then forward to
`shell.clear`, i.e. `term.clear()`. -/
def SubShell.clear (s : SubShell) : Except ShellErr Unit := do
  s.checkDestroyed
  return ()

/-- The body of the `for await` loop inside `SubShell.readStream`:
`for await (let data of iterator) { if (this.destroyed) break; yield data }`.
`destroyedAt i` is the value of `this.destroyed` observed when the i-th
raw chunk arrives; the result is the list of chunks actually yielded
(the loop breaks, without throwing, at the first chunk for which the flag
is set). -/
def readStreamYield (destroyedAt : Nat → Bool) :
    List String → Nat → List String
  | [], _ => []
  | c :: cs, i =>
    if destroyedAt i then []
    else c :: readStreamYield destroyedAt cs (i + 1)

/-- `SubShell.readStream()` data behaviour, given the incoming raw
chunks: it contains no `checkDestroyed` call and has no throw path for a
destroyed context — the only destroyed handling is the `break`, so it
always completes with `.ok` of the chunks yielded before the flag was
observed set. -/
def SubShell.readStream (destroyedAt : Nat → Bool) (chunks : List String) :
    Except ShellErr (List String) :=
  .ok (readStreamYield destroyedAt chunks 0)

/-- The way a `readStream` iteration can come to its end: the underlying
event source is disposed of (the event-iterator queue is exhausted), the
consumer breaks out early, or the `if (this.destroyed) break` guard
fires. -/
inductive StreamEnd where
  | exhausted
  | earlyBreak
  | ctxDestroyed

/-- Opening the raw stream: the `listen` callback of the EventIterator
subscribes `term.onData(push)` and then calls `this.shell.detach()`. -/
def streamOpen (sh : XtermJSShell) : XtermJSShell × List EchoCall :=
  sh.detach

/-- Closing the raw stream: whichever way the iteration ends, the single
`remove` callback of the EventIterator runs `dataListener.dispose()` and
then `this.shell.attach()` — the same code on every route. -/
def streamClose (sh : XtermJSShell) : StreamEnd → XtermJSShell × List EchoCall
  | .exhausted => sh.attach
  | .earlyBreak => sh.attach
  | .ctxDestroyed => sh.attach

/-- One complete `readStream` lifecycle: open, then close by route `e`;
the traces of echo-engine calls are concatenated in order. -/
def streamLifecycle (sh : XtermJSShell) (e : StreamEnd) :
    XtermJSShell × List EchoCall :=
  ((streamClose (streamOpen sh).1 e).1,
   (streamOpen sh).2 ++ (streamClose (streamOpen sh).1 e).2)

/-- A sequence of invocations each opening and closing one raw stream. -/
def streamLifecycles (sh : XtermJSShell) :
    List StreamEnd → XtermJSShell × List EchoCall
  | [] => (sh, [])
  | e :: es =>
    ((streamLifecycles (streamLifecycle sh e).1 es).1,
     (streamLifecycle sh e).2 ++ (streamLifecycles (streamLifecycle sh e).1 es).2)

/-- An arbitrary call on the shell attachment interface. -/
inductive ShellCall where
  | det
  | att

/-- Apply one attachment call to the shell. -/
def applyCall (sh : XtermJSShell) : ShellCall → XtermJSShell × List EchoCall
  | .det => sh.detach
  | .att => sh.attach

/-- Apply a sequence of attachment calls, concatenating the echo-engine
call traces. -/
def applyCalls (sh : XtermJSShell) :
    List ShellCall → XtermJSShell × List EchoCall
  | [] => (sh, [])
  | c :: cs =>
    ((applyCalls (applyCall sh c).1 cs).1,
     (applyCall sh c).2 ++ (applyCalls (applyCall sh c).1 cs).2)

/-- The drain loop of `run` for a sequence-returning handler:
`for await (let data of result) { shell.print(data) }` — every chunk goes
through `SubShell.print` on the invocation context, in sequence order.
Returns the chunks written to the terminal so far and the error, if any,
raised by a print. -/
def drain (ctx : SubShell) : List String → List String × Option ShellErr
  | [] => ([], none)
  | c :: cs =>
    match ctx.print c with
    | .error e => ([], some e)
    | .ok w => (w :: (drain ctx cs).1, (drain ctx cs).2)

/-- Everything observable about one `run(command, args, flags)` call:
whether a `SubShell` was constructed, whether the handler was invoked,
the chunks written via the context during the drain, the final value of
the created context's destroyed flag, and the overall result (`.error`
models `run`'s returned promise rejecting). -/
structure RunOutcome where
  ctxCreated : Bool
  handlerInvoked : Bool
  printed : List String
  ctxDestroyed : Bool
  result : Except ShellErr Unit

/-- `XtermJSShell.run(command, args, flags)`:
`if (!command) return` (the undefined command of an empty line, modelled
as the empty string, is falsy); throw `Command Not Found` when the name
is not registered (before any `SubShell` exists); otherwise construct a
fresh `SubShell`, call `fn(shell, args, flags)`, await a thenable result
or drain an iterator result through `shell.print`, and only after that
normal completion reach `shell.destroy()` — a synchronous throw, a
rejection or a mid-drain error propagates out with `destroy` never
executed (there is no try/finally in `run`). -/
def XtermJSShell.run (sh : XtermJSShell) (command : String)
    (args : List String) (flags : Flags) : RunOutcome :=
  if command = "" then ⟨false, false, [], false, .ok ()⟩
  else
    match mapGet sh.commands command with
    | none => ⟨false, false, [], false, .error (.notFound command)⟩
    | some entry =>
      let ctx : SubShell := ⟨false⟩
      match entry.fn args flags with
      | .syncThrow m =>
        ⟨true, true, [], ctx.destroyed, .error (.handlerErr m)⟩
      | .thenResolve =>
        ⟨true, true, [], ctx.destroy.destroyed, .ok ()⟩
      | .thenReject m =>
        ⟨true, true, [], ctx.destroyed, .error (.handlerErr m)⟩
      | .iter chunks endErr =>
        match (drain ctx chunks).2 with
        | some e =>
          ⟨true, true, (drain ctx chunks).1, ctx.destroyed, .error e⟩
        | none =>
          match endErr with
          | some m =>
            ⟨true, true, (drain ctx chunks).1, ctx.destroyed,
             .error (.handlerErr m)⟩
          | none =>
            ⟨true, true, (drain ctx chunks).1, ctx.destroy.destroyed, .ok ()⟩
      | .plain =>
        ⟨true, true, [], ctx.destroy.destroyed, .ok ()⟩

/-- Everything observable about one `repl()` pass that reaches its end:
what was logged to `console.error`, the lines printed via
`echo.println`, the chunks written to the terminal by the dispatched
command, and whether the trailing `this.repl()` call (the next
iteration) was reached. -/
structure ReplOutcome where
  logged : List String
  printedLines : List String
  termWrites : List String
  continued : Bool

/-- One pass of `XtermJSShell.repl`, with the external tokenizer
(string-to-argv) and argument parser (minimist) as interface parameters:
read a line, tokenize it, shift off the command word (`headD ""` models
`argv.shift()` returning undefined, which is falsy, on an empty line),
parse the rest into positional args and flags, then `try { await
this.run(...) } catch (e) { console.error(e); await
this.echo.println(e.message) }` and finally `this.repl()`.  Only the
`run` call is inside the try: if the tokenizer itself throws, the error
propagates out of the pass (`.error`) and the trailing `this.repl()` is
never reached. -/
def replPass (sh : XtermJSShell) (tok : String → Except String (List String))
    (parse : List String → List String × Flags) (line : String) :
    Except String ReplOutcome :=
  match tok line with
  | .error m => .error m
  | .ok argv =>
    match (sh.run (argv.headD "") (parse argv.tail).1 (parse argv.tail).2).result with
    | .ok _ =>
      .ok ⟨[], [],
        (sh.run (argv.headD "") (parse argv.tail).1 (parse argv.tail).2).printed,
        true⟩
    | .error e =>
      .ok ⟨[errMessage e], [errMessage e],
        (sh.run (argv.headD "") (parse argv.tail).1 (parse argv.tail).2).printed,
        true⟩

/-- A handler whose returned promise rejects with "boom". -/
def failHandler : Handler := fun _ _ => .thenReject "boom"

/-- A handler returning an async generator that yields "a", "b", "c" and
then finishes. -/
def genHandler : Handler := fun _ _ => .iter ["a", "b", "c"] none

/-- An autocomplete provider used in concrete checks. -/
def colorProvider : Provider := fun _ _ => ["red", "green"]

/-- A handler that resolves without output. -/
def okHandler : Handler := fun _ _ => .thenResolve

/-- A concrete shell with a rejecting command, a streaming command and a
plain resolving command with an autocomplete provider. -/
def shDemo : XtermJSShell :=
  ⟨[("fail", ⟨"fail", failHandler, none⟩),
    ("gen", ⟨"gen", genHandler, none⟩),
    ("paint", ⟨"paint", okHandler, some colorProvider⟩)], [], true⟩

/-- A concrete shell in the detached state with an empty registry. -/
def shDetached : XtermJSShell := ⟨[], [], false⟩

/-- A tokenizer that fails on every line, standing for a tokenizing error
(string-to-argv is an external call made outside the try block). -/
def tokenizeFail : String → Except String (List String) :=
  fun _ => .error "Unmatched quote"

/-- A tokenizer that treats the whole line as a single command word and
never fails. -/
def tokenizeSplit : String → Except String (List String) :=
  fun line => .ok [line]

/-- An argument parser that treats every token as positional and parses
no flags. -/
def parseAllPositional : List String → List String × Flags :=
  fun argv => (argv, [])

/-- A destroyed invocation context. -/
def ctxDestroyedDemo : SubShell := ⟨true⟩

/-- `altFrom s tr`: the echo-engine call trace `tr` is strictly
alternating when started from attachment state `s`: a `detach` call is
only made while attached (and moves to detached), an `attach` call only
while detached. -/
def altFrom : Bool → List EchoCall → Bool
  | _, [] => true
  | s, .detach :: r => s && altFrom false r
  | s, .attach :: r => !s && altFrom true r

/-- The attachment state after a trace of echo-engine calls. -/
def finalState : Bool → List EchoCall → Bool
  | s, [] => s
  | _, .detach :: r => finalState false r
  | _, .attach :: r => finalState true r

theorem mapGet_mapSet_self (m : Commands) (k : String) (v : Entry) :
    mapGet (mapSet m k v) k = some v := by
  induction m with
  | nil => simp [mapSet, mapGet, List.find?]
  | cons p t ih =>
    rcases p with ⟨a, b⟩
    by_cases h : (a == k) = true
    · simp [mapSet, mapGet, h, List.find?]
    · have h' : (a == k) = false := by simpa using h
      simpa [mapSet, mapGet, h', List.find?] using ih

theorem mapHas_eq_isSome_mapGet (m : Commands) (k : String) :
    mapHas m k = (mapGet m k).isSome := by
  simp [mapHas, mapGet]

/-- Claim C5: after any registration of a name, `has(name)` is true and
`get(name)` returns the most recently registered entry (last write wins);
registering an already bound name only emits the non-fatal warning
(recorded by the Bool component, equal to the prior `has`), the
registration function is total (never throws), and the updated shell is
returned for chaining. -/
theorem register_last_write_wins (sh : XtermJSShell) (name : String)
    (fn : Handler) (auto : Option Provider) :
    mapHas (sh.command name fn auto).1.commands name = true
    ∧ mapGet (sh.command name fn auto).1.commands name = some ⟨name, fn, auto⟩
    ∧ (sh.command name fn auto).2 = mapHas sh.commands name := by
  refine ⟨?_, ?_, rfl⟩
  · show mapHas (mapSet sh.commands name ⟨name, fn, auto⟩) name = true
    rw [mapHas_eq_isSome_mapGet, mapGet_mapSet_self]
    rfl
  · exact mapGet_mapSet_self sh.commands name ⟨name, fn, auto⟩

/-- Claim C7: autocomplete resolution at index 0 returns exactly the list
of currently registered command names, whatever the tokens are. -/
theorem autocomplete_index_zero (sh : XtermJSShell) (tokens : List String) :
    sh.autoCompleteCommands 0 tokens = mapKeys sh.commands := rfl

/-- Claim C8: for index k ≥ 1 and tokens `cmd :: args`, autocomplete
resolution returns the provider value `P (k-1) args` verbatim when `cmd`
is registered with provider `P`, and the empty list when `cmd` is
unregistered or registered without a provider. -/
theorem autocomplete_delegates (sh : XtermJSShell) (k : Nat) (hk : 1 ≤ k)
    (cmd : String) (args : List String) :
    (∀ entry p, mapGet sh.commands cmd = some entry →
        entry.autocomplete = some p →
        sh.autoCompleteCommands k (cmd :: args) = p (k - 1) args)
    ∧ (mapGet sh.commands cmd = none →
        sh.autoCompleteCommands k (cmd :: args) = [])
    ∧ (∀ entry, mapGet sh.commands cmd = some entry →
        entry.autocomplete = none →
        sh.autoCompleteCommands k (cmd :: args) = []) := by
  obtain ⟨j, rfl⟩ : ∃ j, k = j + 1 := ⟨k - 1, by omega⟩
  refine ⟨?_, ?_, ?_⟩
  · intro entry p hget hp
    simp [XtermJSShell.autoCompleteCommands, hget, hp]
  · intro hget
    simp [XtermJSShell.autoCompleteCommands, hget]
  · intro entry hget hp
    simp [XtermJSShell.autoCompleteCommands, hget, hp]

/-- Witness for C8 at a concrete shell: the `paint` command delegates to
its provider with the index shifted down and the command token dropped. -/
theorem autocomplete_delegates_witness :
    shDemo.autoCompleteCommands 1 ["paint", "re"] = colorProvider 0 ["re"] :=
  (autocomplete_delegates shDemo 1 (by decide) "paint" ["re"]).1
    ⟨"paint", okHandler, some colorProvider⟩ colorProvider rfl rfl

theorem altFrom_append (s : Bool) (t1 t2 : List EchoCall) :
    altFrom s (t1 ++ t2) = (altFrom s t1 && altFrom (finalState s t1) t2) := by
  induction t1 generalizing s with
  | nil => simp [altFrom, finalState]
  | cons c r ih =>
    cases c <;> simp [altFrom, finalState, ih, Bool.and_assoc]

theorem applyCall_altFrom (sh : XtermJSShell) (c : ShellCall) :
    altFrom sh.attached (applyCall sh c).2 = true
    ∧ finalState sh.attached (applyCall sh c).2 = (applyCall sh c).1.attached := by
  cases c <;> cases h : sh.attached <;>
    simp [applyCall, XtermJSShell.detach, XtermJSShell.attach, h, altFrom,
      finalState]

theorem applyCalls_altFrom (sh : XtermJSShell) (calls : List ShellCall) :
    altFrom sh.attached (applyCalls sh calls).2 = true := by
  induction calls generalizing sh with
  | nil => simp [applyCalls, altFrom]
  | cons c cs ih =>
    have h := applyCall_altFrom sh c
    show altFrom sh.attached
      ((applyCall sh c).2 ++ (applyCalls (applyCall sh c).1 cs).2) = true
    rw [altFrom_append, h.2, h.1, Bool.true_and]
    exact ih (applyCall sh c).1

/-- Claim C10: `detach()` while already detached is a complete no-op (no
echo-engine call, state unchanged), symmetrically for `attach()` while
attached; consequently, over any call sequence, the echo engine only ever
sees strictly alternating detach/attach calls (a detach is only issued in
the attached state and an attach only in the detached state). -/
theorem detach_attach_idempotent (sh : XtermJSShell) :
    (sh.attached = false → sh.detach = (sh, []))
    ∧ (sh.attached = true → sh.attach = (sh, []))
    ∧ ∀ calls : List ShellCall,
        altFrom sh.attached (applyCalls sh calls).2 = true := by
  refine ⟨?_, ?_, fun calls => applyCalls_altFrom sh calls⟩
  · intro h
    simp [XtermJSShell.detach, h]
  · intro h
    simp [XtermJSShell.attach, h]

/-- Witness for C10 at concrete shells: a detach on a detached shell and
an attach on an attached shell are no-ops, and a concrete call sequence
produces a strictly alternating echo trace. -/
theorem detach_attach_idempotent_witness :
    shDetached.detach = (shDetached, [])
    ∧ shDemo.attach = (shDemo, [])
    ∧ altFrom shDetached.attached
        (applyCalls shDetached [ShellCall.att, ShellCall.att, ShellCall.det]).2
        = true :=
  ⟨(detach_attach_idempotent shDetached).1 rfl,
   (detach_attach_idempotent shDemo).2.1 rfl,
   (detach_attach_idempotent shDetached).2.2
     [ShellCall.att, ShellCall.att, ShellCall.det]⟩

theorem streamLifecycle_attached (sh : XtermJSShell) (h : sh.attached = true)
    (e : StreamEnd) :
    streamLifecycle sh e = (sh, [EchoCall.detach, EchoCall.attach]) := by
  cases sh with
  | mk commands env attached =>
    cases e <;>
      simp_all [streamLifecycle, streamOpen, streamClose,
        XtermJSShell.detach, XtermJSShell.attach]

theorem streamLifecycles_spec (ends : List StreamEnd) :
    ∀ sh : XtermJSShell, sh.attached = true →
      streamLifecycles sh ends
        = (sh, List.flatten
            (List.replicate ends.length [EchoCall.detach, EchoCall.attach])) := by
  induction ends with
  | nil =>
    intro sh h
    simp [streamLifecycles]
  | cons e es ih =>
    intro sh h
    have h1 := streamLifecycle_attached sh h e
    show ((streamLifecycles (streamLifecycle sh e).1 es).1,
      (streamLifecycle sh e).2
        ++ (streamLifecycles (streamLifecycle sh e).1 es).2)
      = _
    rw [h1]
    simp only []
    rw [ih sh h]
    simp [List.replicate_succ]

theorem join_replicate_pair_count (n : Nat) :
    (List.flatten (List.replicate n [EchoCall.detach, EchoCall.attach])).count
        EchoCall.detach = n
    ∧ (List.flatten (List.replicate n [EchoCall.detach, EchoCall.attach])).count
        EchoCall.attach = n := by
  induction n with
  | zero => simp
  | succ n ih =>
    have e1 : (EchoCall.attach == EchoCall.detach) = false := by decide
    have e2 : (EchoCall.detach == EchoCall.detach) = true := by decide
    have e3 : (EchoCall.attach == EchoCall.attach) = true := by decide
    have e4 : (EchoCall.detach == EchoCall.attach) = false := by decide
    simp [List.replicate_succ, List.count_cons, ih.1, ih.2, e1, e2, e3, e4]

theorem altFrom_join_replicate (n : Nat) :
    altFrom true
      (List.flatten (List.replicate n [EchoCall.detach, EchoCall.attach]))
      = true := by
  induction n with
  | zero => simp [altFrom]
  | succ n ih => simpa [List.replicate_succ, altFrom] using ih

/-- Claim C3: opening the raw input stream detaches the line editor
(attached becomes false, one echo detach call), closing it by any of the
three routes (exhaustion, early break, context destruction) re-attaches
it exactly once — the lifecycle trace is exactly one detach followed by
one attach; across any sequence of stream-using invocations the echo
detach and attach calls balance 1:1 and the trace is strictly
alternating, so at most one of the line editor and an active raw stream
owns terminal input at any instant. -/
theorem readStream_attach_balance (sh : XtermJSShell)
    (h : sh.attached = true) :
    (∀ e : StreamEnd,
        (streamOpen sh).1.attached = false
        ∧ (streamLifecycle sh e).2 = [EchoCall.detach, EchoCall.attach]
        ∧ (streamLifecycle sh e).1.attached = true)
    ∧ ∀ ends : List StreamEnd,
        (streamLifecycles sh ends).1.attached = true
        ∧ (streamLifecycles sh ends).2.count EchoCall.detach
            = (streamLifecycles sh ends).2.count EchoCall.attach
        ∧ altFrom true (streamLifecycles sh ends).2 = true := by
  constructor
  · intro e
    refine ⟨?_, ?_, ?_⟩
    · simp [streamOpen, XtermJSShell.detach, h]
    · rw [streamLifecycle_attached sh h e]
    · rw [streamLifecycle_attached sh h e]
      exact h
  · intro ends
    have hs := streamLifecycles_spec ends sh h
    refine ⟨?_, ?_, ?_⟩
    · rw [hs]
      exact h
    · rw [hs]
      exact (join_replicate_pair_count ends.length).1.trans
        (join_replicate_pair_count ends.length).2.symm
    · rw [hs]
      exact altFrom_join_replicate ends.length

/-- Witness for C3 at a concrete attached shell: one early-break
lifecycle produces exactly one detach then one attach, and a concrete
sequence of lifecycles has balancing detach/attach call counts. -/
theorem readStream_attach_balance_witness :
    (streamLifecycle shDemo StreamEnd.earlyBreak).2
      = [EchoCall.detach, EchoCall.attach]
    ∧ (streamLifecycles shDemo
        [StreamEnd.exhausted, StreamEnd.ctxDestroyed]).2.count EchoCall.detach
      = (streamLifecycles shDemo
        [StreamEnd.exhausted, StreamEnd.ctxDestroyed]).2.count EchoCall.attach :=
  ⟨((readStream_attach_balance shDemo rfl).1 StreamEnd.earlyBreak).2.1,
   ((readStream_attach_balance shDemo rfl).2
     [StreamEnd.exhausted, StreamEnd.ctxDestroyed]).2.1⟩

/-- Claim C4 counterexample: `readStream` contains no destroyed check —
opened on an already destroyed context it completes silently with no
chunks instead of failing with the destroyed-context error, refuting the
claim that every listed operation fails on a destroyed context. -/
theorem readStream_destroyed_counterexample :
    SubShell.readStream (fun _ => true) ["x"] = Except.ok []
    ∧ ∀ e : ShellErr,
        SubShell.readStream (fun _ => true) ["x"] ≠ Except.error e := by
  constructor
  · rfl
  · intro e h
    simp [SubShell.readStream] at h

/-- Claim C4 (amended): on a context with destroyed = true every
operation among print, printLine, printList, readChar, readLine,
abortRead and clear fails with the destroyed-context error ("Terminal
destroyed"); readStream alone does not fail — it performs no destroyed
check and, with the flag set, ends silently yielding no chunks. -/
theorem destroyed_context_operations (s : SubShell) (h : s.destroyed = true)
    (m : String) (l : List String) :
    s.print m = .error .destroyed
    ∧ s.printLine m = .error .destroyed
    ∧ s.printList l = .error .destroyed
    ∧ s.readChar m = .error .destroyed
    ∧ s.readLine m = .error .destroyed
    ∧ s.abortRead m = .error .destroyed
    ∧ s.clear = .error .destroyed
    ∧ ∀ (d : Nat → Bool) (chunks : List String), (∀ i, d i = true) →
        SubShell.readStream d chunks = .ok [] := by
  refine ⟨?_, ?_, ?_, ?_, ?_, ?_, ?_, ?_⟩
  · simp [SubShell.print, SubShell.checkDestroyed, h, Bind.bind, Except.bind]
  · simp [SubShell.printLine, SubShell.checkDestroyed, h, Bind.bind,
      Except.bind]
  · simp [SubShell.printList, SubShell.checkDestroyed, h, Bind.bind,
      Except.bind]
  · simp [SubShell.readChar, SubShell.checkDestroyed, h, Bind.bind,
      Except.bind]
  · simp [SubShell.readLine, SubShell.checkDestroyed, h, Bind.bind,
      Except.bind]
  · simp [SubShell.abortRead, SubShell.checkDestroyed, h, Bind.bind,
      Except.bind]
  · simp [SubShell.clear, SubShell.checkDestroyed, h, Bind.bind, Except.bind]
  · intro d chunks hd
    cases chunks with
    | nil => rfl
    | cons c cs => simp [SubShell.readStream, readStreamYield, hd 0]

/-- Witness for the amended C4 at a concrete destroyed context. -/
theorem destroyed_context_operations_witness :
    ctxDestroyedDemo.print "x" = Except.error ShellErr.destroyed
    ∧ SubShell.readStream (fun _ => true) ["x", "y"] = Except.ok [] :=
  ⟨(destroyed_context_operations ctxDestroyedDemo rfl "x" []).1,
   (destroyed_context_operations ctxDestroyedDemo rfl "x" []).2.2.2.2.2.2.2
     (fun _ => true) ["x", "y"] (fun _ => rfl)⟩

theorem drain_live (chunks : List String) :
    drain ⟨false⟩ chunks = (chunks, none) := by
  induction chunks with
  | nil => rfl
  | cons c cs ih =>
    show (c :: (drain ⟨false⟩ cs).1, (drain ⟨false⟩ cs).2) = (c :: cs, none)
    rw [ih]

/-- Claim C1 counterexample: running the registered `fail` command, whose
handler returns a rejecting promise, creates an invocation context,
propagates the rejection out of run — and leaves the context NOT
destroyed (destroyed = false), because run has no try/finally and
`shell.destroy()` is only reached on the success path. -/
theorem run_fail_not_destroyed_counterexample :
    (shDemo.run "fail" [] []).ctxCreated = true
    ∧ (shDemo.run "fail" [] []).result
        = Except.error (ShellErr.handlerErr "boom")
    ∧ (shDemo.run "fail" [] []).ctxDestroyed = false :=
  ⟨rfl, rfl, rfl⟩

/-- Claim C1 (amended): the invocation context is destroyed if and only
if a context was created and the invocation completed successfully (the
awaited value resolved, or the output sequence drained without error);
when the handler throws synchronously, its promise rejects, or its
sequence throws mid-drain, the error propagates with the context still
not destroyed. -/
theorem run_destroys_only_on_success (sh : XtermJSShell) (command : String)
    (args : List String) (flags : Flags) :
    (sh.run command args flags).ctxDestroyed = true
    ↔ ((sh.run command args flags).ctxCreated = true
       ∧ (sh.run command args flags).result = Except.ok ()) := by
  unfold XtermJSShell.run
  by_cases hc : command = ""
  · simp [hc]
  · simp only [hc, if_false]
    cases hget : mapGet sh.commands command with
    | none => simp [hget]
    | some entry =>
      cases hfn : entry.fn args flags with
      | syncThrow m => simp [hget, hfn, SubShell.destroy]
      | thenResolve => simp [hget, hfn, SubShell.destroy]
      | thenReject m => simp [hget, hfn, SubShell.destroy]
      | plain => simp [hget, hfn, SubShell.destroy]
      | iter chunks endErr =>
        cases endErr <;> simp [hget, hfn, drain_live, SubShell.destroy]

/-- Claim C6: dispatching an unregistered, non-empty command name invokes
no handler and constructs no invocation context; run rejects with the
error whose message is "Command Not Found: name", and the repl pass
catches it, prints that single line, and continues to the next
iteration. -/
theorem run_not_found (sh : XtermJSShell) (command : String)
    (args : List String) (flags : Flags) (h1 : ¬command = "")
    (h2 : mapGet sh.commands command = none) :
    sh.run command args flags
      = ⟨false, false, [], false, Except.error (ShellErr.notFound command)⟩
    ∧ errMessage (ShellErr.notFound command) = "Command Not Found: " ++ command
    ∧ ∀ (tok : String → Except String (List String))
        (parse : List String → List String × Flags)
        (line : String) (argv : List String),
        tok line = Except.ok argv →
        argv.headD "" = command →
        (parse argv.tail).1 = args →
        (parse argv.tail).2 = flags →
        replPass sh tok parse line
          = Except.ok ⟨[errMessage (ShellErr.notFound command)],
              [errMessage (ShellErr.notFound command)], [], true⟩ := by
  have hrun : sh.run command args flags
      = ⟨false, false, [], false, Except.error (ShellErr.notFound command)⟩ := by
    unfold XtermJSShell.run
    simp [h1, h2]
  refine ⟨hrun, rfl, ?_⟩
  intro tok parse line argv htok hhead hpos hflags
  unfold replPass
  rw [htok]
  simp only [hhead, hpos, hflags, hrun, errMessage]

/-- Witness for C6 at a concrete input: the unregistered name `nope`. -/
theorem run_not_found_witness :
    shDemo.run "nope" [] []
      = ⟨false, false, [], false, Except.error (ShellErr.notFound "nope")⟩
    ∧ replPass shDemo tokenizeSplit parseAllPositional "nope"
        = Except.ok ⟨[errMessage (ShellErr.notFound "nope")],
            [errMessage (ShellErr.notFound "nope")], [], true⟩ :=
  ⟨(run_not_found shDemo "nope" [] [] (by decide) rfl).1,
   (run_not_found shDemo "nope" [] [] (by decide) rfl).2.2
     tokenizeSplit parseAllPositional "nope" ["nope"] rfl rfl rfl rfl⟩

/-- Claim C9: a handler returning a lazy sequence of chunks has its
sequence drained to completion, each chunk written through the context
print primitive (the drain function is defined chunk by chunk over
SubShell.print) in strict sequence order with no reordering, after which
run succeeds and the context is destroyed. -/
theorem run_drains_in_order (sh : XtermJSShell) (command : String)
    (args : List String) (flags : Flags) (entry : Entry)
    (chunks : List String) (h1 : ¬command = "")
    (h2 : mapGet sh.commands command = some entry)
    (h3 : entry.fn args flags = .iter chunks none) :
    (sh.run command args flags).printed = chunks
    ∧ (sh.run command args flags).result = Except.ok ()
    ∧ (sh.run command args flags).ctxDestroyed = true
    ∧ drain ⟨false⟩ chunks = (chunks, none) := by
  have hd := drain_live chunks
  unfold XtermJSShell.run
  simp [h1, h2, h3, hd, SubShell.destroy]

/-- Witness for C9 at a concrete input: the `gen` command yielding `a`,
`b`, `c` writes exactly a, b, c in that order and then succeeds. -/
theorem run_drains_in_order_witness :
    (shDemo.run "gen" [] []).printed = ["a", "b", "c"]
    ∧ (shDemo.run "gen" [] []).result = Except.ok () :=
  ⟨(run_drains_in_order shDemo "gen" [] [] ⟨"gen", genHandler, none⟩
      ["a", "b", "c"] (by decide) rfl rfl).1,
   (run_drains_in_order shDemo "gen" [] [] ⟨"gen", genHandler, none⟩
      ["a", "b", "c"] (by decide) rfl rfl).2.1⟩

/-- Claim C2 counterexample: the tokenizing step runs before the try
block of repl, so a tokenizer error is not caught at the loop level — the
pass rejects and the trailing loop call is never reached, at the concrete
input of a failing tokenizer and an arbitrary line. -/
theorem tokenize_error_uncaught_counterexample :
    replPass shDemo tokenizeFail parseAllPositional "echo hi"
      = Except.error "Unmatched quote" := rfl

/-- Claim C2 (amended): any error raised during command lookup or handler
execution/draining — i.e. inside run — is caught at the loop level,
logged once to the diagnostic sink, surfaced to the user as a single
printed line containing exactly the error message, and the pass reaches
the next loop iteration; an error raised by the tokenizer itself,
however, occurs before the try block and propagates out of the pass. -/
theorem repl_catches_run_errors (sh : XtermJSShell)
    (tok : String → Except String (List String))
    (parse : List String → List String × Flags) (line : String)
    (argv : List String) (h : tok line = Except.ok argv) :
    (∀ e, (sh.run (argv.headD "") (parse argv.tail).1 (parse argv.tail).2).result
          = Except.error e →
        replPass sh tok parse line
          = Except.ok ⟨[errMessage e], [errMessage e],
              (sh.run (argv.headD "") (parse argv.tail).1
                (parse argv.tail).2).printed, true⟩)
    ∧ ((sh.run (argv.headD "") (parse argv.tail).1 (parse argv.tail).2).result
          = Except.ok () →
        replPass sh tok parse line
          = Except.ok ⟨[], [],
              (sh.run (argv.headD "") (parse argv.tail).1
                (parse argv.tail).2).printed, true⟩) := by
  constructor
  · intro e he
    simp only [replPass, h, he]
  · intro hok
    simp only [replPass, h, hok]

/-- Witness for the amended C2 at a concrete input: the rejecting `fail`
command has its message logged and printed once and the loop continues. -/
theorem repl_catches_run_errors_witness :
    replPass shDemo tokenizeSplit parseAllPositional "fail"
      = Except.ok ⟨[errMessage (ShellErr.handlerErr "boom")],
          [errMessage (ShellErr.handlerErr "boom")],
          (shDemo.run (["fail"].headD "")
            (parseAllPositional ["fail"].tail).1
            (parseAllPositional ["fail"].tail).2).printed, true⟩ :=
  (repl_catches_run_errors shDemo tokenizeSplit parseAllPositional "fail"
    ["fail"] rfl).1 (ShellErr.handlerErr "boom") rfl

end XtermShell
